import Mathlib

/-!
# The allocation-check-release program of `src/main.c`

A shallow embedding of `main` together with the three library calls it makes
(`malloc`, `free`, `printf`).  The allocator is not part of the source file:
it is a parameter of the model, so every theorem holds for every allocator.
Memory, standard input and standard output are explicit state, and every
library call is recorded in a chronological history together with the memory
contents at that instant.
-/

namespace Imagination

/-! ## Data model -/

/-- A C object pointer, as an address.  Address `0` is the null pointer. -/
abbrev Ptr := Nat

/-- The null pointer: the value for which `!arr` is true. -/
def NULL : Ptr := 0

/-- Addressable memory: the byte stored at every address. -/
abbrev Mem := Nat → Nat

/-- The two platform parameters the program depends on: `sizeof(int)` in
bytes and the width in bits of the unsigned type `size_t`. -/
structure Platform where
  sizeofInt : Nat
  sizeBits : Nat
  deriving DecidableEq, Repr

/-- Conversion of a mathematical integer to `size_t`. -/
def toSize (P : Platform) (n : Nat) : Nat := n % 2 ^ P.sizeBits

/-- Multiplication in `size_t`: both operands are converted to `size_t` and
the product is reduced modulo `2 ^ sizeBits`. -/
def sizeMul (P : Platform) (a b : Nat) : Nat :=
  (toSize P a * toSize P b) % 2 ^ P.sizeBits

/-- The ambient allocator that `malloc` and `free` reach.  It receives the
current memory and may change it in any way; `malloc` answers with a pointer,
`NULL` meaning that the request is denied. -/
structure Allocator where
  malloc : Mem → Nat → Ptr × Mem
  free : Mem → Ptr → Mem

/-- The calls a C function can make that are visible from outside, and its
return.  `load` and `store` are accesses to addressable memory. -/
inductive Event where
  | malloc (size : Nat) (result : Ptr)
  | free (p : Ptr)
  | printf (text : String)
  | load (addr : Ptr)
  | store (addr : Ptr) (val : Nat)
  | ret (status : Int)
  deriving DecidableEq, Repr

/-- The state of the process as seen by `main`. -/
structure World where
  mem : Mem
  stdin : String
  stdout : String
  history : List (Event × Mem)

/-- The world in which the process starts: nothing written, nothing recorded. -/
def World.boot (input : String) (m : Mem) : World :=
  { mem := m, stdin := input, stdout := "", history := [] }

/-- Append an event to the history, with the memory contents at that instant. -/
def World.record (w : World) (e : Event) : World :=
  { w with history := w.history ++ [(e, w.mem)] }

/-! ## The library calls -/

/-- The call `malloc(n)`: the allocator answers and may change memory; the
event is recorded when the call returns. -/
def malloc (A : Allocator) (n : Nat) (w : World) : Ptr × World :=
  let r := A.malloc w.mem n
  (r.1, World.record { w with mem := r.2 } (Event.malloc n r.1))

/-- The call `free(p)`: the event is recorded at the moment of the call, then
the allocator takes the region back. -/
def free (A : Allocator) (p : Ptr) (w : World) : World :=
  let w1 := w.record (Event.free p)
  { w1 with mem := A.free w1.mem p }

/-- The call `printf(text)` for a text without conversion specifications: the
text is appended to standard output. -/
def printf (text : String) (w : World) : World :=
  let w1 := w.record (Event.printf text)
  { w1 with stdout := w1.stdout ++ text }

/-- The access `*p` as an rvalue. -/
def load (p : Ptr) (w : World) : Nat × World :=
  (w.mem p, w.record (Event.load p))

/-- The assignment `*p = v`. -/
def store (p : Ptr) (v : Nat) (w : World) : World :=
  let w1 := w.record (Event.store p v)
  { w1 with mem := fun a => if a = p then v else w1.mem a }

/-! ## The program -/

/-- The function `main` of `src/main.c`, statement by statement.  The result is
the value returned (the exit status of the process) and the final world. -/
def main (P : Platform) (A : Allocator) (w : World) : Int × World :=
  let r := malloc A (sizeMul P 100 P.sizeofInt) w
  let arr := r.1
  let w := r.2
  if arr = NULL then
    let w := printf "Allocation failed!\n" w
    (1, w.record (Event.ret 1))
  else
    let w := free A arr w
    let w := printf "Success!\n" w
    (0, w.record (Event.ret 0))

/-- Process entry: the C runtime calls `main`, which is declared without
parameters, so the command line never reaches it. -/
def start (P : Platform) (A : Allocator) (_argv : List String) (input : String)
    (m : Mem) : Int × World :=
  main P A (World.boot input m)

/-! ## Observations of a run -/

/-- The allocator's answer to the request `main` makes in initial memory `m`. -/
def answer (P : Platform) (A : Allocator) (m : Mem) : Ptr :=
  (A.malloc m (sizeMul P 100 P.sizeofInt)).1

/-- Memory at the moment the acquire returns. -/
def memAcquired (P : Platform) (A : Allocator) (m : Mem) : Mem :=
  (A.malloc m (sizeMul P 100 P.sizeofInt)).2

/-- The events of a history, in order. -/
def trace (w : World) : List Event := w.history.map Prod.fst

/-- The acquire requests of a trace: size asked and pointer answered. -/
def mallocs : List Event → List (Nat × Ptr)
  | [] => []
  | Event.malloc n p :: es => (n, p) :: mallocs es
  | _ :: es => mallocs es

/-- The arguments of the release calls of a trace. -/
def frees : List Event → List Ptr
  | [] => []
  | Event.free p :: es => p :: frees es
  | _ :: es => frees es

/-- The regions still held after a trace, as an allocation-tracking harness
counts them: a successful acquire adds its region to the regions `held` so
far, a release removes one occurrence of its argument. -/
def live (held : List Ptr) : List Event → List Ptr
  | [] => held
  | Event.malloc _ p :: es => live (if p = NULL then held else p :: held) es
  | Event.free p :: es => live (held.erase p) es
  | _ :: es => live held es

/-- Number of outstanding allocations after a trace that starts with none. -/
def outstanding (tr : List Event) : Nat := (live [] tr).length

/-- The memory accesses (loads and stores) of a trace. -/
def accesses : List Event → List Event
  | [] => []
  | Event.load a :: es => Event.load a :: accesses es
  | Event.store a v :: es => Event.store a v :: accesses es
  | _ :: es => accesses es

/-- Memory contents at the moment each acquire of a history returned. -/
def acquireSnaps : List (Event × Mem) → List Mem
  | [] => []
  | (Event.malloc _ _, m) :: h => m :: acquireSnaps h
  | _ :: h => acquireSnaps h

/-- Memory contents at the moment of each release call of a history. -/
def releaseSnaps : List (Event × Mem) → List Mem
  | [] => []
  | (Event.free _, m) :: h => m :: releaseSnaps h
  | _ :: h => releaseSnaps h

/-- True when no allocator call follows an output call in the trace. -/
def allocQuietAfterOutput : List Event → Bool
  | [] => true
  | Event.printf _ :: es =>
      (mallocs es).isEmpty && (frees es).isEmpty && allocQuietAfterOutput es
  | _ :: es => allocQuietAfterOutput es

/-- Split a text into its newline-terminated lines; `cur` is the line being
read.  A last line without newline is kept when it is not empty. -/
def splitLines (cur : List Char) : List Char → List String
  | [] => if cur.isEmpty then [] else [String.mk cur]
  | c :: cs =>
      if c = Char.ofNat 10 then String.mk cur :: splitLines [] cs
      else splitLines (cur ++ [c]) cs

/-- The lines of a text. -/
def linesOf (s : String) : List String := splitLines [] s.toList

/-! ## The state machine of the specification -/

/-- The states of the sequence as the specification names them. -/
inductive Phase where
  | start
  | acquired
  | failed
  | released
  | terminated (status : Int)
  deriving DecidableEq, Repr

/-- The state an event leads to: an acquire leads to `acquired` or `failed`
according to its answer, a release to `released`, the return to
`terminated`.  Other events do not change the state. -/
def Event.phase : Event → Option Phase
  | Event.malloc _ p => some (if p = NULL then Phase.failed else Phase.acquired)
  | Event.free _ => some Phase.released
  | Event.ret c => some (Phase.terminated c)
  | _ => none

/-- The states a trace passes through, from the initial state on. -/
def phases (tr : List Event) : List Phase := Phase.start :: tr.filterMap Event.phase

/-- The transitions the specification lists: `Start → Acquired|Failed`,
`Acquired → Released`, `Released → Terminated(0)`, `Failed → Terminated(1)`. -/
def Phase.allowed : Phase → Phase → Bool
  | Phase.start, Phase.acquired => true
  | Phase.start, Phase.failed => true
  | Phase.acquired, Phase.released => true
  | Phase.released, Phase.terminated c => c == 0
  | Phase.failed, Phase.terminated c => c == 1
  | _, _ => false

/-- True when every two consecutive states are linked by a listed transition. -/
def followsSpec : List Phase → Bool
  | a :: b :: rest => Phase.allowed a b && followsSpec (b :: rest)
  | _ => true

/-! ## Concrete platforms and allocators -/

/-- A platform with 2-byte `int` and 16-bit `size_t`. -/
def Platform.small16 : Platform := { sizeofInt := 2, sizeBits := 16 }

/-- A platform with 4-byte `int` and 32-bit `size_t`. -/
def Platform.ilp32 : Platform := { sizeofInt := 4, sizeBits := 32 }

/-- A platform with 4-byte `int` and 64-bit `size_t`. -/
def Platform.lp64 : Platform := { sizeofInt := 4, sizeBits := 64 }

/-- A platform with 8-byte `int` and 64-bit `size_t`. -/
def Platform.ilp64 : Platform := { sizeofInt := 8, sizeBits := 64 }

/-- Memory holding zero everywhere. -/
def zeroMem : Mem := fun _ => 0

/-- A one-region allocator: a request of at most `cap` bytes is granted at
address `base` and its size is written in the header byte before the region;
a larger request is denied.  Releasing `base` clears the header. -/
def arena (base cap : Nat) : Allocator where
  malloc := fun m n =>
    if n ≤ cap then (base, fun a => if a = base - 1 then n else m a) else (NULL, m)
  free := fun m p => if p = base then fun a => if a = base - 1 then 0 else m a else m

/-! ## The two runs of the program -/

/-- The byte count that `main` passes to `malloc`. -/
def request (P : Platform) : Nat := sizeMul P 100 P.sizeofInt

/-- The whole result of a run in which the allocator denies the request. -/
theorem start_of_denied (P : Platform) (A : Allocator) (argv : List String)
    (input : String) (m : Mem) (h : answer P A m = NULL) :
    start P A argv input m =
      (1, { mem := memAcquired P A m, stdin := input, stdout := "Allocation failed!\n",
            history := [(Event.malloc (request P) NULL, memAcquired P A m),
                        (Event.printf "Allocation failed!\n", memAcquired P A m),
                        (Event.ret 1, memAcquired P A m)] }) := by
  unfold answer at h
  simp [start, main, malloc, printf, World.record, World.boot, memAcquired, request, h]

/-- The whole result of a run in which the allocator grants the request. -/
theorem start_of_granted (P : Platform) (A : Allocator) (argv : List String)
    (input : String) (m : Mem) (h : answer P A m ≠ NULL) :
    start P A argv input m =
      (0, { mem := A.free (memAcquired P A m) (answer P A m), stdin := input,
            stdout := "Success!\n",
            history := [(Event.malloc (request P) (answer P A m), memAcquired P A m),
                        (Event.free (answer P A m), memAcquired P A m),
                        (Event.printf "Success!\n",
                          A.free (memAcquired P A m) (answer P A m)),
                        (Event.ret 0, A.free (memAcquired P A m) (answer P A m))] }) := by
  have h1 : ¬ (A.malloc m (sizeMul P 100 P.sizeofInt)).1 = NULL := h
  simp [start, main, malloc, free, printf, World.record, World.boot, memAcquired, request,
    answer, h1]

/-- No wrap-around: a product below `2 ^ sizeBits` is computed exactly. -/
theorem sizeMul_exact (P : Platform) (a b : Nat) (h : a * b < 2 ^ P.sizeBits) :
    sizeMul P a b = a * b := by
  unfold sizeMul toSize
  rw [← Nat.mul_mod]
  exact Nat.mod_eq_of_lt h

/-- The success message is one line. -/
theorem linesOf_success : linesOf "Success!\n" = ["Success!"] := by decide

/-- The failure message is one line. -/
theorem linesOf_failure : linesOf "Allocation failed!\n" = ["Allocation failed!"] := by decide

/-- Every acquire event of a trace is listed by `mallocs`. -/
theorem mem_mallocs_of_mem (n : Nat) (p : Ptr) (tr : List Event)
    (h : Event.malloc n p ∈ tr) : (n, p) ∈ mallocs tr := by
  induction tr with
  | nil => cases h
  | cons e es ih =>
    rcases List.mem_cons.mp h with h1 | h1
    · rw [← h1]
      simp [mallocs]
    · cases e <;> simp [mallocs, ih h1]

/-- The acquire requests of any run: one, of `request P` bytes. -/
theorem mallocs_start (P : Platform) (A : Allocator) (argv : List String)
    (input : String) (m : Mem) :
    mallocs (trace (start P A argv input m).2) = [(request P, answer P A m)] := by
  by_cases h : answer P A m = NULL
  · rw [start_of_denied P A argv input m h]
    simp [trace, mallocs, h]
  · rw [start_of_granted P A argv input m h]
    simp [trace, mallocs]

/-! ## The claims -/

/-- C1: whenever the allocator answers with a usable (non-null) region, the text
on standard output is exactly the line `Success!` followed by a newline and
the exit status is 0. -/
theorem success_output_status (P : Platform) (A : Allocator) (argv : List String)
    (input : String) (m : Mem) (h : answer P A m ≠ NULL) :
    (start P A argv input m).2.stdout = "Success!\n" ∧
    linesOf (start P A argv input m).2.stdout = ["Success!"] ∧
    (start P A argv input m).1 = 0 := by
  rw [start_of_granted P A argv input m h]
  exact ⟨rfl, linesOf_success, rfl⟩

/-- Witness of C1: an arena large enough for 400 bytes on a 64-bit platform. -/
theorem success_output_status_witness :
    answer Platform.lp64 (arena 4096 1000) zeroMem ≠ NULL ∧
    ((start Platform.lp64 (arena 4096 1000) [] "" zeroMem).2.stdout = "Success!\n" ∧
     linesOf (start Platform.lp64 (arena 4096 1000) [] "" zeroMem).2.stdout = ["Success!"] ∧
     (start Platform.lp64 (arena 4096 1000) [] "" zeroMem).1 = 0) :=
  ⟨by decide, success_output_status Platform.lp64 (arena 4096 1000) [] "" zeroMem (by decide)⟩

/-- C2: when the allocator denies the request, standard output is exactly the
line `Allocation failed!` followed by a newline, the only output call of the
run is the one that writes it, and the exit status is 1. -/
theorem failure_output_status (P : Platform) (A : Allocator) (argv : List String)
    (input : String) (m : Mem) (h : answer P A m = NULL) :
    (start P A argv input m).2.stdout = "Allocation failed!\n" ∧
    linesOf (start P A argv input m).2.stdout = ["Allocation failed!"] ∧
    (trace (start P A argv input m).2).filter
        (fun e => match e with | Event.printf _ => true | _ => false)
      = [Event.printf "Allocation failed!\n"] ∧
    (start P A argv input m).1 = 1 := by
  rw [start_of_denied P A argv input m h]
  refine ⟨rfl, linesOf_failure, ?_, rfl⟩
  simp [trace, List.filter]

/-- Witness of C2: an arena one byte too small for the 400 bytes requested. -/
theorem failure_output_status_witness :
    answer Platform.lp64 (arena 4096 399) zeroMem = NULL ∧
    ((start Platform.lp64 (arena 4096 399) [] "" zeroMem).2.stdout = "Allocation failed!\n" ∧
     linesOf (start Platform.lp64 (arena 4096 399) [] "" zeroMem).2.stdout
       = ["Allocation failed!"] ∧
     (trace (start Platform.lp64 (arena 4096 399) [] "" zeroMem).2).filter
         (fun e => match e with | Event.printf _ => true | _ => false)
       = [Event.printf "Allocation failed!\n"] ∧
     (start Platform.lp64 (arena 4096 399) [] "" zeroMem).1 = 1) :=
  ⟨by decide, failure_output_status Platform.lp64 (arena 4096 399) [] "" zeroMem (by decide)⟩

/-- C3: on the success path the trace holds exactly one release call, its
argument is the region the acquire returned, and an allocation-tracking
harness counts zero outstanding allocations when `main` has returned. -/
theorem success_releases_once (P : Platform) (A : Allocator) (argv : List String)
    (input : String) (m : Mem) (h : answer P A m ≠ NULL) :
    frees (trace (start P A argv input m).2) = [answer P A m] ∧
    mallocs (trace (start P A argv input m).2) = [(request P, answer P A m)] ∧
    live [] (trace (start P A argv input m).2) = [] ∧
    outstanding (trace (start P A argv input m).2) = 0 := by
  rw [start_of_granted P A argv input m h]
  simp [trace, frees, mallocs, outstanding, live, h]

/-- Witness of C3: the region at address 4096 is acquired and released. -/
theorem success_releases_once_witness :
    answer Platform.lp64 (arena 4096 1000) zeroMem ≠ NULL ∧
    frees (trace (start Platform.lp64 (arena 4096 1000) [] "" zeroMem).2) = [4096] ∧
    outstanding (trace (start Platform.lp64 (arena 4096 1000) [] "" zeroMem).2) = 0 :=
  ⟨by decide,
   (success_releases_once Platform.lp64 (arena 4096 1000) [] "" zeroMem (by decide)).1,
   (success_releases_once Platform.lp64 (arena 4096 1000) [] "" zeroMem (by decide)).2.2.2⟩

/-- C4: on the failure path the trace holds no release call: after the denied
acquire the only events are the failure message and the return with status 1,
no memory access is made, and the run passes through `Start`, `Failed`,
`Terminated(1)` only, never through `Acquired` or `Released`. -/
theorem failure_never_releases (P : Platform) (A : Allocator) (argv : List String)
    (input : String) (m : Mem) (h : answer P A m = NULL) :
    frees (trace (start P A argv input m).2) = [] ∧
    trace (start P A argv input m).2 =
      [Event.malloc (request P) NULL, Event.printf "Allocation failed!\n", Event.ret 1] ∧
    accesses (trace (start P A argv input m).2) = [] ∧
    phases (trace (start P A argv input m).2) =
      [Phase.start, Phase.failed, Phase.terminated 1] ∧
    Phase.acquired ∉ phases (trace (start P A argv input m).2) ∧
    Phase.released ∉ phases (trace (start P A argv input m).2) := by
  rw [start_of_denied P A argv input m h]
  simp [trace, frees, accesses, phases, Event.phase]

/-- Witness of C4: an arena one byte too small. -/
theorem failure_never_releases_witness :
    answer Platform.lp64 (arena 4096 399) zeroMem = NULL ∧
    frees (trace (start Platform.lp64 (arena 4096 399) [] "" zeroMem).2) = [] ∧
    Phase.released ∉ phases (trace (start Platform.lp64 (arena 4096 399) [] "" zeroMem).2) :=
  ⟨by decide,
   (failure_never_releases Platform.lp64 (arena 4096 399) [] "" zeroMem (by decide)).1,
   (failure_never_releases Platform.lp64 (arena 4096 399) [] "" zeroMem (by decide)).2.2.2.2.2⟩

/-- C5: for every allocator the exit status is 0 exactly when the acquire
returned a usable region and 1 otherwise, standard output is exactly one line,
`Success!` in the first case and `Allocation failed!` in the second, standard
input is left unread, and the command line and the input have no influence on
status, output or trace. -/
theorem status_and_output_cases (P : Platform) (A : Allocator) (argv : List String)
    (input : String) (m : Mem) :
    ((start P A argv input m).1 = 0 ↔ answer P A m ≠ NULL) ∧
    ((start P A argv input m).1 = 1 ↔ answer P A m = NULL) ∧
    ((start P A argv input m).1 = 0 ∨ (start P A argv input m).1 = 1) ∧
    ((answer P A m ≠ NULL ∧ (start P A argv input m).2.stdout = "Success!\n" ∧
        linesOf (start P A argv input m).2.stdout = ["Success!"]) ∨
     (answer P A m = NULL ∧ (start P A argv input m).2.stdout = "Allocation failed!\n" ∧
        linesOf (start P A argv input m).2.stdout = ["Allocation failed!"])) ∧
    (start P A argv input m).2.stdin = input ∧
    (∀ (argv2 : List String) (input2 : String),
      (start P A argv2 input2 m).1 = (start P A argv input m).1 ∧
      (start P A argv2 input2 m).2.stdout = (start P A argv input m).2.stdout ∧
      trace (start P A argv2 input2 m).2 = trace (start P A argv input m).2) := by
  by_cases h : answer P A m = NULL
  · have e : ∀ (a : List String) (i : String), start P A a i m = _ :=
      fun a i => start_of_denied P A a i m h
    simp only [e]
    simp [h, linesOf_failure, trace]
  · have e : ∀ (a : List String) (i : String), start P A a i m = _ :=
      fun a i => start_of_granted P A a i m h
    simp only [e]
    simp [h, linesOf_success, trace]

/-- C6: in every run, granted or denied, the trace holds exactly one acquire
request; the size asked is `100 * sizeof(int)` computed in `size_t`, which is
the product `100 * sizeof(int)` whenever that fits `size_t`, and 400 when
`sizeof(int)` is 4.  A denied acquire is not repeated. -/
theorem one_request_of_100_ints (P : Platform) (A : Allocator) (argv : List String)
    (input : String) (m : Mem) :
    mallocs (trace (start P A argv input m).2) = [(request P, answer P A m)] ∧
    (mallocs (trace (start P A argv input m).2)).length = 1 ∧
    request P = sizeMul P 100 P.sizeofInt ∧
    (100 * P.sizeofInt < 2 ^ P.sizeBits → request P = 100 * P.sizeofInt) ∧
    (P.sizeofInt = 4 → 9 ≤ P.sizeBits → request P = 400) := by
  have hm : mallocs (trace (start P A argv input m).2) = [(request P, answer P A m)] := by
    by_cases h : answer P A m = NULL
    · rw [start_of_denied P A argv input m h]
      simp [trace, mallocs, h]
    · rw [start_of_granted P A argv input m h]
      simp [trace, mallocs]
  refine ⟨hm, by rw [hm]; rfl, rfl, fun hlt => sizeMul_exact P 100 P.sizeofInt hlt, ?_⟩
  intro h4 hw
  have hp : 2 ^ 9 ≤ 2 ^ P.sizeBits := Nat.pow_le_pow_right (by decide) hw
  have hlt : 100 * P.sizeofInt < 2 ^ P.sizeBits := by
    rw [h4]
    exact Nat.lt_of_lt_of_le (by decide) hp
  have e : request P = 100 * P.sizeofInt := sizeMul_exact P 100 P.sizeofInt hlt
  rw [e, h4]

/-- Witness of C6: on a 64-bit platform with 4-byte `int` a denied run asks
once, for 400 bytes. -/
theorem one_request_of_100_ints_witness :
    mallocs (trace (start Platform.lp64 (arena 4096 399) [] "" zeroMem).2)
      = [(request Platform.lp64, answer Platform.lp64 (arena 4096 399) zeroMem)] ∧
    request Platform.lp64 = 100 * 4 ∧
    request Platform.lp64 = 400 :=
  ⟨(one_request_of_100_ints Platform.lp64 (arena 4096 399) [] "" zeroMem).1,
   (one_request_of_100_ints Platform.lp64 (arena 4096 399) [] "" zeroMem).2.2.2.1 (by decide),
   (one_request_of_100_ints Platform.lp64 (arena 4096 399) [] "" zeroMem).2.2.2.2 rfl
     (by decide)⟩

/-- C7: standard output and exit status depend on the allocator's answer only
through its being null or not: two runs, on any platforms, with any
allocators, memories, command lines and inputs, whose acquires are both
granted or both denied have the same output and the same exit status. -/
theorem output_status_deterministic (P1 P2 : Platform) (A1 A2 : Allocator)
    (argv1 argv2 : List String) (input1 input2 : String) (m1 m2 : Mem)
    (h : answer P1 A1 m1 = NULL ↔ answer P2 A2 m2 = NULL) :
    (start P1 A1 argv1 input1 m1).2.stdout = (start P2 A2 argv2 input2 m2).2.stdout ∧
    (start P1 A1 argv1 input1 m1).1 = (start P2 A2 argv2 input2 m2).1 := by
  by_cases h1 : answer P1 A1 m1 = NULL
  · rw [start_of_denied P1 A1 argv1 input1 m1 h1,
      start_of_denied P2 A2 argv2 input2 m2 (h.mp h1)]
    exact ⟨rfl, rfl⟩
  · rw [start_of_granted P1 A1 argv1 input1 m1 h1,
      start_of_granted P2 A2 argv2 input2 m2 (fun h2 => h1 (h.mpr h2))]
    exact ⟨rfl, rfl⟩

/-- Witness of C7: two granted runs at different addresses, on different
platforms and in different memories. -/
theorem output_status_deterministic_witness :
    answer Platform.lp64 (arena 4096 1000) zeroMem ≠
      answer Platform.small16 (arena 512 200) (fun a => a) ∧
    (start Platform.lp64 (arena 4096 1000) ["a"] "x" zeroMem).2.stdout =
      (start Platform.small16 (arena 512 200) [] "" (fun a => a)).2.stdout ∧
    (start Platform.lp64 (arena 4096 1000) ["a"] "x" zeroMem).1 =
      (start Platform.small16 (arena 512 200) [] "" (fun a => a)).1 :=
  ⟨by decide,
   output_status_deterministic Platform.lp64 Platform.small16 (arena 4096 1000)
     (arena 512 200) ["a"] [] "x" "" zeroMem (fun a => a) (by decide)⟩

/-- C8: on the success path the complete trace is, in this order, the acquire,
the release of the acquired region, the output of `Success!` and the return
with status 0; no allocator call follows an output call, and the states passed
through are `Start`, `Acquired`, `Released`, `Terminated(0)`, each step being
a transition the specification lists. -/
theorem success_trace_order (P : Platform) (A : Allocator) (argv : List String)
    (input : String) (m : Mem) (h : answer P A m ≠ NULL) :
    trace (start P A argv input m).2 =
      [Event.malloc (request P) (answer P A m), Event.free (answer P A m),
       Event.printf "Success!\n", Event.ret 0] ∧
    allocQuietAfterOutput (trace (start P A argv input m).2) = true ∧
    phases (trace (start P A argv input m).2) =
      [Phase.start, Phase.acquired, Phase.released, Phase.terminated 0] ∧
    followsSpec (phases (trace (start P A argv input m).2)) = true := by
  rw [start_of_granted P A argv input m h]
  simp [trace, allocQuietAfterOutput, mallocs, frees, phases, Event.phase, h, followsSpec,
    Phase.allowed]

/-- Witness of C8: the four events of a granted run on a 32-bit platform. -/
theorem success_trace_order_witness :
    answer Platform.ilp32 (arena 4096 400) zeroMem ≠ NULL ∧
    trace (start Platform.ilp32 (arena 4096 400) [] "" zeroMem).2 =
      [Event.malloc (request Platform.ilp32) (answer Platform.ilp32 (arena 4096 400) zeroMem),
       Event.free (answer Platform.ilp32 (arena 4096 400) zeroMem),
       Event.printf "Success!\n", Event.ret 0] :=
  ⟨by decide,
   (success_trace_order Platform.ilp32 (arena 4096 400) [] "" zeroMem (by decide)).1⟩

/-- C9: between acquire and release `main` makes no access to memory: the trace
holds no load and no store, and the contents of all memory at the moment of
the release call are the contents at the moment the acquire returned. -/
theorem region_untouched (P : Platform) (A : Allocator) (argv : List String)
    (input : String) (m : Mem) (h : answer P A m ≠ NULL) :
    accesses (trace (start P A argv input m).2) = [] ∧
    acquireSnaps (start P A argv input m).2.history = [memAcquired P A m] ∧
    releaseSnaps (start P A argv input m).2.history = [memAcquired P A m] ∧
    releaseSnaps (start P A argv input m).2.history =
      acquireSnaps (start P A argv input m).2.history := by
  rw [start_of_granted P A argv input m h]
  simp [trace, accesses, acquireSnaps, releaseSnaps]

/-- Witness of C9: an arena that writes a header on acquire and clears it on
release; at the release call the header still holds the size. -/
theorem region_untouched_witness :
    answer Platform.lp64 (arena 4096 1000) zeroMem ≠ NULL ∧
    releaseSnaps (start Platform.lp64 (arena 4096 1000) [] "" zeroMem).2.history =
      acquireSnaps (start Platform.lp64 (arena 4096 1000) [] "" zeroMem).2.history :=
  ⟨by decide,
   (region_untouched Platform.lp64 (arena 4096 1000) [] "" zeroMem (by decide)).2.2.2⟩

/-- C10: for `sizeof(int)` among 2, 4 and 8 and a `size_t` of at least 16 bits,
the byte count that `main` passes to `malloc`, as recorded in the trace of the
run, is strictly positive and equals the product `100 * sizeof(int)` without
wrap-around: in no run, granted or denied, is the request zero-sized. -/
theorem request_positive_exact (P : Platform) (A : Allocator) (argv : List String)
    (input : String) (m : Mem)
    (hs : P.sizeofInt = 2 ∨ P.sizeofInt = 4 ∨ P.sizeofInt = 8) (hw : 16 ≤ P.sizeBits) :
    mallocs (trace (start P A argv input m).2) = [(100 * P.sizeofInt, answer P A m)] ∧
    (∀ q ∈ mallocs (trace (start P A argv input m).2), 0 < q.1 ∧ q.1 = 100 * P.sizeofInt) ∧
    Event.malloc 0 (answer P A m) ∉ trace (start P A argv input m).2 ∧
    0 < request P ∧ request P = 100 * P.sizeofInt ∧ request P ≠ 0 := by
  have hp : 2 ^ 16 ≤ 2 ^ P.sizeBits := Nat.pow_le_pow_right (by decide) hw
  have hlt : 100 * P.sizeofInt < 2 ^ P.sizeBits := by
    have : 100 * P.sizeofInt < 2 ^ 16 := by
      rcases hs with h | h | h <;> rw [h] <;> decide
    exact Nat.lt_of_lt_of_le this hp
  have he : request P = 100 * P.sizeofInt := sizeMul_exact P 100 P.sizeofInt hlt
  have hpos : 0 < 100 * P.sizeofInt := by
    rcases hs with h | h | h <;> rw [h] <;> decide
  have hne : request P ≠ 0 := by
    rw [he]
    exact Nat.pos_iff_ne_zero.mp hpos
  have hm : mallocs (trace (start P A argv input m).2) = [(100 * P.sizeofInt, answer P A m)] := by
    rw [mallocs_start P A argv input m, he]
  refine ⟨hm, ?_, ?_, by rw [he]; exact hpos, he, hne⟩
  · intro q hq
    rw [hm] at hq
    rw [List.mem_singleton.mp hq]
    exact ⟨hpos, rfl⟩
  · intro hmem
    have h0 : (0, answer P A m) ∈ mallocs (trace (start P A argv input m).2) :=
      mem_mallocs_of_mem _ _ _ hmem
    rw [hm] at h0
    have h1 := congrArg Prod.fst (List.mem_singleton.mp h0)
    exact Nat.pos_iff_ne_zero.mp hpos h1.symm

/-- Witness of C10: with a 2-byte `int` and a 16-bit `size_t` the one request of
a granted run asks for 200 bytes. -/
theorem request_positive_exact_witness :
    mallocs (trace (start Platform.small16 (arena 512 200) [] "" zeroMem).2) =
      [(100 * 2, answer Platform.small16 (arena 512 200) zeroMem)] ∧
    (∀ q ∈ mallocs (trace (start Platform.small16 (arena 512 200) [] "" zeroMem).2),
      0 < q.1 ∧ q.1 = 100 * 2) :=
  ⟨(request_positive_exact Platform.small16 (arena 512 200) [] "" zeroMem (Or.inl rfl)
      (by decide)).1,
   (request_positive_exact Platform.small16 (arena 512 200) [] "" zeroMem (Or.inl rfl)
      (by decide)).2.1⟩

end Imagination
